import Mathlib

/-!
Shallow embedding of the clp constraint-logic-programming engine.

The data model follows src/expressions/mod.rs, src/expressions/boolean.rs
and src/expressions/integer.rs; the solver entry points follow
src/solver.rs. Signed 128-bit integers are modelled as Int: no operation
reachable from the embedded entry points performs arithmetic on them, so
the bounded width is not observable here. The source arm that aborts the
process (the unimplemented arm of the integer-domain sampler) is modelled
as Except.error, so that process-terminating behaviour is visible as a
value distinct from both a successful sample and an absent sample.
-/

namespace Clp

/-- A symbol is an immutable name, as in the source struct Symbol. -/
structure Symbol where
  name : String
  deriving DecidableEq

/-- Boolean base values, source enum BooleanValue. -/
inductive BooleanValue where
  | False
  | True
  deriving DecidableEq

/-- Integer values, source enum IntegerNumber: a NaN sentinel or a signed value. -/
inductive IntegerNumber where
  | NaN
  | Value : Int → IntegerNumber
  deriving DecidableEq

/-- Structural equality on IntegerNumber exactly as the derived PartialEq of the
source compares the two constructors. -/
def IntegerNumber.eq : IntegerNumber → IntegerNumber → Bool
  | .NaN, .NaN => true
  | .Value a, .Value b => a == b
  | _, _ => false

/-- Integer expressions, source enum IntegerNumberExpression. -/
inductive IntegerNumberExpression where
  | IntegerNumberVariable : Symbol → IntegerNumberExpression
  | IntegerNumberValue : IntegerNumber → IntegerNumberExpression
  | Parenthesis : IntegerNumberExpression → IntegerNumberExpression
  | Negate : IntegerNumberExpression → IntegerNumberExpression
  | Add : IntegerNumberExpression → IntegerNumberExpression → IntegerNumberExpression
  | Minus : IntegerNumberExpression → IntegerNumberExpression → IntegerNumberExpression
  | Times : IntegerNumberExpression → IntegerNumberExpression → IntegerNumberExpression
  | Divide : IntegerNumberExpression → IntegerNumberExpression → IntegerNumberExpression
  | Modulo : IntegerNumberExpression → IntegerNumberExpression → IntegerNumberExpression
  deriving DecidableEq

/-- Integer domains, source enum IntegerNumberDomainExpression: range bounds are
expressions, not raw values. -/
inductive IntegerNumberDomainExpression where
  | Universe
  | Empty
  | ClosedRange : IntegerNumberExpression → IntegerNumberExpression → IntegerNumberDomainExpression
  | OpenRange : IntegerNumberExpression → IntegerNumberExpression → IntegerNumberDomainExpression
  | OpenLeftClosedRightRange :
      IntegerNumberExpression → IntegerNumberExpression → IntegerNumberDomainExpression
  | ClosedLeftOpenRightRange :
      IntegerNumberExpression → IntegerNumberExpression → IntegerNumberDomainExpression
  | ExplicitSet : List IntegerNumberExpression → IntegerNumberDomainExpression
  | Union :
      IntegerNumberDomainExpression → IntegerNumberDomainExpression →
      IntegerNumberDomainExpression
  | Intersection :
      IntegerNumberDomainExpression → IntegerNumberDomainExpression →
      IntegerNumberDomainExpression
  | Difference :
      IntegerNumberDomainExpression → IntegerNumberDomainExpression →
      IntegerNumberDomainExpression
  | Complement : IntegerNumberDomainExpression → IntegerNumberDomainExpression

/-- Boolean value domains, source enum BooleanValueDomainExpression. -/
inductive BooleanValueDomainExpression where
  | Universe
  | Empty
  | Single : BooleanValue → BooleanValueDomainExpression
  deriving DecidableEq

/-- A domain is a boolean or an integer domain, source enum Domain. -/
inductive Domain where
  | Boolean : BooleanValueDomainExpression → Domain
  | Integer : IntegerNumberDomainExpression → Domain

/-- Concrete values a variable can take, source enum AssignedValue. -/
inductive AssignedValue where
  | Boolean : BooleanValue → AssignedValue
  | Integer : IntegerNumber → AssignedValue
  deriving DecidableEq

/-- A symbol paired with its declared domain, source struct Variable. -/
structure Variable where
  name : Symbol
  domain : Domain

/-- A symbol paired with one concrete value, source struct Assignment. -/
structure Assignment where
  name : Symbol
  value : AssignedValue
  deriving DecidableEq

/-- Boolean expressions, source enum BooleanExpression. -/
inductive BooleanExpression where
  | And : BooleanExpression → BooleanExpression → BooleanExpression
  | Or : BooleanExpression → BooleanExpression → BooleanExpression
  | Implies : BooleanExpression → BooleanExpression → BooleanExpression
  | Equals : BooleanExpression → BooleanExpression → BooleanExpression
  | Parenthesis : BooleanExpression → BooleanExpression
  | Not : BooleanExpression → BooleanExpression
  | BooleanVariable : Symbol → BooleanExpression
  | BooleanValue : BooleanValue → BooleanExpression
  deriving DecidableEq

/-- Integer relations producing a boolean, source enum BooleanIntegerNumberExpression. -/
inductive BooleanIntegerNumberExpression where
  | Equals : IntegerNumberExpression → IntegerNumberExpression → BooleanIntegerNumberExpression
  | Different : IntegerNumberExpression → IntegerNumberExpression → BooleanIntegerNumberExpression
  | Greater : IntegerNumberExpression → IntegerNumberExpression → BooleanIntegerNumberExpression
  | Less : IntegerNumberExpression → IntegerNumberExpression → BooleanIntegerNumberExpression
  | In :
      IntegerNumberExpression → IntegerNumberDomainExpression → BooleanIntegerNumberExpression

/-- One boolean constraint, source enum ConstraintLogicExpression. -/
inductive ConstraintLogicExpression where
  | Boolean : BooleanExpression → ConstraintLogicExpression
  | OfIntegerNumber : BooleanIntegerNumberExpression → ConstraintLogicExpression

/-- A goal over a constraint, source enum SatisfactionExpression. -/
inductive SatisfactionExpression where
  | Satisfy : ConstraintLogicExpression → SatisfactionExpression
  | Minimise : ConstraintLogicExpression → SatisfactionExpression
  | Maximise : ConstraintLogicExpression → SatisfactionExpression

/-- A whole program, source enum ConstraintProgramExpression. -/
inductive ConstraintProgramExpression where
  | Solve : SatisfactionExpression → ConstraintProgramExpression
  | SolveAnd :
      SatisfactionExpression → ConstraintProgramExpression → ConstraintProgramExpression
  | ConstrainAnd :
      ConstraintLogicExpression → ConstraintProgramExpression → ConstraintProgramExpression

/-- A solution record, source enum Solution in src/solver.rs. -/
inductive Solution where
  | Unsatisfiable : Symbol → String → Solution
  | Variable : Symbol → AssignedValue → Solution
  | Constant : Symbol → AssignedValue → Solution

/-- Sampler for boolean domains, source impl Sample for BooleanValueDomainExpression. -/
def BooleanValueDomainExpression.sample : BooleanValueDomainExpression → Option AssignedValue
  | .Empty => none
  | .Single val => some (.Boolean val)
  | .Universe => some (.Boolean .False)

/-- Sampler for integer domains, source impl Sample for IntegerNumberDomainExpression.
Every arm other than Empty and Universe is the source catch-all that aborts the
process; it is modelled as Except.error with the message of the source marker. -/
def IntegerNumberDomainExpression.sample :
    IntegerNumberDomainExpression → Except String (Option AssignedValue)
  | .Empty => .ok none
  | .Universe => .ok (some (.Integer (.Value 0)))
  | _ => .error "not implemented"

/-- Sampler dispatch over the two domain kinds, source impl Sample for Domain. -/
def Domain.sample : Domain → Except String (Option AssignedValue)
  | .Boolean dom => .ok dom.sample
  | .Integer dom => dom.sample

/-- Resolve a variable to an assignment by sampling its domain, source
Variable::assignment in src/expressions/mod.rs. -/
def Variable.assignment (v : Variable) : Except String (Option Assignment) :=
  match v.domain.sample with
  | .error e => .error e
  | .ok none => .ok none
  | .ok (some value) => .ok (some ⟨v.name, value⟩)

/-- True when sampling the domain of the variable returns no value. -/
def Variable.failedSample (v : Variable) : Bool :=
  match v.assignment with
  | .ok none => true
  | _ => false

/-- Attempt generator, source generate_attempt in src/solver.rs: sample the
variables in order, aborting with None as soon as one sample has no value. -/
def generate_attempt : List Variable → Except String (Option (List Assignment))
  | [] => .ok (some [])
  | x :: free =>
    match x.assignment with
    | .error e => .error e
    | .ok none => .ok none
    | .ok (some a) =>
      match generate_attempt free with
      | .error e => .error e
      | .ok none => .ok none
      | .ok (some rest) => .ok (some (a :: rest))

/-- Substitution engine, source apply in src/solver.rs: the body returns the
program unchanged and ignores the assignment sequence. -/
def apply (program : ConstraintProgramExpression) (_state : List Assignment) :
    ConstraintProgramExpression :=
  program

/-- Reduction engine, source reduce in src/solver.rs: the body returns the
program unchanged. -/
def reduce (program : ConstraintProgramExpression) : ConstraintProgramExpression :=
  program

/-- Free-variable analyzer for boolean expressions, source impl FreeVariable for
BooleanExpression: every variable leaf yields one entry with the boolean
Universe domain, children are visited left to right. -/
def BooleanExpression.get_free : BooleanExpression → List Variable
  | .BooleanVariable symbol => [⟨symbol, .Boolean .Universe⟩]
  | .Not expr => expr.get_free
  | .Parenthesis expr => expr.get_free
  | .And a b => a.get_free ++ b.get_free
  | .Or a b => a.get_free ++ b.get_free
  | .Implies a b => a.get_free ++ b.get_free
  | .Equals a b => a.get_free ++ b.get_free
  | .BooleanValue _ => []

/-- Free-variable analyzer for integer expressions, source impl FreeVariable for
IntegerNumberExpression: every variable leaf yields one entry with the integer
Universe domain. -/
def IntegerNumberExpression.get_free : IntegerNumberExpression → List Variable
  | .IntegerNumberValue _ => []
  | .IntegerNumberVariable symbol => [⟨symbol, .Integer .Universe⟩]
  | .Parenthesis expr => expr.get_free
  | .Negate expr => expr.get_free
  | .Add a b => a.get_free ++ b.get_free
  | .Minus a b => a.get_free ++ b.get_free
  | .Times a b => a.get_free ++ b.get_free
  | .Divide a b => a.get_free ++ b.get_free
  | .Modulo a b => a.get_free ++ b.get_free

/-- Free-variable analyzer for a sequence of integer expressions, source impl
FreeVariable for Vec of IntegerNumberExpression. -/
def get_free_list : List IntegerNumberExpression → List Variable
  | [] => []
  | e :: es => e.get_free ++ get_free_list es

/-- Free-variable analyzer for integer domains, source impl FreeVariable for
IntegerNumberDomainExpression. -/
def IntegerNumberDomainExpression.get_free : IntegerNumberDomainExpression → List Variable
  | .Universe => []
  | .Empty => []
  | .ClosedRange a b => a.get_free ++ b.get_free
  | .OpenRange a b => a.get_free ++ b.get_free
  | .OpenLeftClosedRightRange a b => a.get_free ++ b.get_free
  | .ClosedLeftOpenRightRange a b => a.get_free ++ b.get_free
  | .ExplicitSet es => get_free_list es
  | .Union a b => a.get_free ++ b.get_free
  | .Intersection a b => a.get_free ++ b.get_free
  | .Difference a b => a.get_free ++ b.get_free
  | .Complement a => a.get_free

/-- Free-variable analyzer for integer relations, source impl FreeVariable for
BooleanIntegerNumberExpression. -/
def BooleanIntegerNumberExpression.get_free : BooleanIntegerNumberExpression → List Variable
  | .Equals a b => a.get_free ++ b.get_free
  | .Different a b => a.get_free ++ b.get_free
  | .Greater a b => a.get_free ++ b.get_free
  | .Less a b => a.get_free ++ b.get_free
  | .In a d => a.get_free ++ d.get_free

/-- Free-variable analyzer for constraints, source impl FreeVariable for
ConstraintLogicExpression. -/
def ConstraintLogicExpression.get_free : ConstraintLogicExpression → List Variable
  | .Boolean expr => expr.get_free
  | .OfIntegerNumber expr => expr.get_free

/-- Free-variable analyzer for goals, source impl FreeVariable for
SatisfactionExpression. -/
def SatisfactionExpression.get_free : SatisfactionExpression → List Variable
  | .Satisfy expr => expr.get_free
  | .Minimise expr => expr.get_free
  | .Maximise expr => expr.get_free

/-- Free-variable analyzer for programs, source impl FreeVariable for
ConstraintProgramExpression. -/
def ConstraintProgramExpression.get_free : ConstraintProgramExpression → List Variable
  | .Solve expr => expr.get_free
  | .SolveAnd a b => a.get_free ++ b.get_free
  | .ConstrainAnd a b => a.get_free ++ b.get_free

/-- Public analyzer entry point, source free_variables in src/solver.rs. -/
def free_variables (program : ConstraintProgramExpression) : List Variable :=
  program.get_free

/-- Solver entry point, source solve in src/solver.rs: the body ignores the
program and returns the empty vector of solutions. -/
def solve (_program : ConstraintProgramExpression) : List Solution :=
  []

/-- The kind of a variable occurrence: a boolean leaf or an integer leaf. -/
inductive VarKind where
  | bool
  | int
  deriving DecidableEq

/-- Spec-side view of one occurrence as the analyzer is specified to report it:
a fresh Universe domain of the value kind of the occurrence. -/
def mkVar : VarKind × Symbol → Variable
  | (.bool, s) => ⟨s, .Boolean .Universe⟩
  | (.int, s) => ⟨s, .Integer .Universe⟩

/-- Spec-side occurrence list for boolean expressions: the symbols of the
variable leaves in left-to-right depth-first order, one entry per occurrence. -/
def BooleanExpression.varOccurrences : BooleanExpression → List Symbol
  | .BooleanVariable symbol => [symbol]
  | .Not expr => expr.varOccurrences
  | .Parenthesis expr => expr.varOccurrences
  | .And a b => a.varOccurrences ++ b.varOccurrences
  | .Or a b => a.varOccurrences ++ b.varOccurrences
  | .Implies a b => a.varOccurrences ++ b.varOccurrences
  | .Equals a b => a.varOccurrences ++ b.varOccurrences
  | .BooleanValue _ => []

/-- Spec-side occurrence list for integer expressions. -/
def IntegerNumberExpression.varOccurrences : IntegerNumberExpression → List Symbol
  | .IntegerNumberValue _ => []
  | .IntegerNumberVariable symbol => [symbol]
  | .Parenthesis expr => expr.varOccurrences
  | .Negate expr => expr.varOccurrences
  | .Add a b => a.varOccurrences ++ b.varOccurrences
  | .Minus a b => a.varOccurrences ++ b.varOccurrences
  | .Times a b => a.varOccurrences ++ b.varOccurrences
  | .Divide a b => a.varOccurrences ++ b.varOccurrences
  | .Modulo a b => a.varOccurrences ++ b.varOccurrences

/-- Spec-side occurrence list for a sequence of integer expressions. -/
def varOccurrences_list : List IntegerNumberExpression → List Symbol
  | [] => []
  | e :: es => e.varOccurrences ++ varOccurrences_list es

/-- Spec-side occurrence list for integer domains. -/
def IntegerNumberDomainExpression.varOccurrences : IntegerNumberDomainExpression → List Symbol
  | .Universe => []
  | .Empty => []
  | .ClosedRange a b => a.varOccurrences ++ b.varOccurrences
  | .OpenRange a b => a.varOccurrences ++ b.varOccurrences
  | .OpenLeftClosedRightRange a b => a.varOccurrences ++ b.varOccurrences
  | .ClosedLeftOpenRightRange a b => a.varOccurrences ++ b.varOccurrences
  | .ExplicitSet es => varOccurrences_list es
  | .Union a b => a.varOccurrences ++ b.varOccurrences
  | .Intersection a b => a.varOccurrences ++ b.varOccurrences
  | .Difference a b => a.varOccurrences ++ b.varOccurrences
  | .Complement a => a.varOccurrences

/-- Spec-side occurrence list for integer relations. -/
def BooleanIntegerNumberExpression.varOccurrences :
    BooleanIntegerNumberExpression → List Symbol
  | .Equals a b => a.varOccurrences ++ b.varOccurrences
  | .Different a b => a.varOccurrences ++ b.varOccurrences
  | .Greater a b => a.varOccurrences ++ b.varOccurrences
  | .Less a b => a.varOccurrences ++ b.varOccurrences
  | .In a d => a.varOccurrences ++ d.varOccurrences

/-- Spec-side occurrence list for constraints, with the kind of each leaf. -/
def ConstraintLogicExpression.varOccurrences :
    ConstraintLogicExpression → List (VarKind × Symbol)
  | .Boolean expr => expr.varOccurrences.map fun s => (VarKind.bool, s)
  | .OfIntegerNumber expr => expr.varOccurrences.map fun s => (VarKind.int, s)

/-- Spec-side occurrence list for goals. -/
def SatisfactionExpression.varOccurrences : SatisfactionExpression → List (VarKind × Symbol)
  | .Satisfy expr => expr.varOccurrences
  | .Minimise expr => expr.varOccurrences
  | .Maximise expr => expr.varOccurrences

/-- Spec-side occurrence list for programs. -/
def ConstraintProgramExpression.varOccurrences :
    ConstraintProgramExpression → List (VarKind × Symbol)
  | .Solve expr => expr.varOccurrences
  | .SolveAnd a b => a.varOccurrences ++ b.varOccurrences
  | .ConstrainAnd a b => a.varOccurrences ++ b.varOccurrences

/-- The scenario program of the spec: Solve(Satisfy(OfIntegerNumber(Equals(
IntegerNumberVariable(x), IntegerNumberValue(Value(5)))))). -/
def scenarioProgram : ConstraintProgramExpression :=
  .Solve (.Satisfy (.OfIntegerNumber (.Equals
    (.IntegerNumberVariable ⟨"x"⟩) (.IntegerNumberValue (.Value 5)))))

theorem boolExpr_free_eq (e : BooleanExpression) :
    e.get_free = e.varOccurrences.map fun s => Variable.mk s (Domain.Boolean .Universe) := by
  induction e <;>
    simp_all [BooleanExpression.get_free, BooleanExpression.varOccurrences]

theorem intExpr_free_eq (e : IntegerNumberExpression) :
    e.get_free = e.varOccurrences.map fun s => Variable.mk s (Domain.Integer .Universe) := by
  induction e <;>
    simp_all [IntegerNumberExpression.get_free, IntegerNumberExpression.varOccurrences]

theorem get_free_list_eq (es : List IntegerNumberExpression) :
    get_free_list es =
      (varOccurrences_list es).map fun s => Variable.mk s (Domain.Integer .Universe) := by
  induction es with
  | nil => rfl
  | cons e es ih => simp [get_free_list, varOccurrences_list, intExpr_free_eq, ih]

theorem intDom_free_eq (d : IntegerNumberDomainExpression) :
    d.get_free = d.varOccurrences.map fun s => Variable.mk s (Domain.Integer .Universe) := by
  induction d <;>
    simp_all [IntegerNumberDomainExpression.get_free,
      IntegerNumberDomainExpression.varOccurrences, intExpr_free_eq, get_free_list_eq]

theorem binExpr_free_eq (e : BooleanIntegerNumberExpression) :
    e.get_free = e.varOccurrences.map fun s => Variable.mk s (Domain.Integer .Universe) := by
  cases e <;>
    simp [BooleanIntegerNumberExpression.get_free,
      BooleanIntegerNumberExpression.varOccurrences, intExpr_free_eq, intDom_free_eq]

theorem cle_free_eq (e : ConstraintLogicExpression) :
    e.get_free = e.varOccurrences.map mkVar := by
  cases e <;>
    simp [ConstraintLogicExpression.get_free, ConstraintLogicExpression.varOccurrences,
      boolExpr_free_eq, binExpr_free_eq, List.map_map, Function.comp, mkVar]

theorem se_free_eq (e : SatisfactionExpression) :
    e.get_free = e.varOccurrences.map mkVar := by
  cases e <;>
    simp [SatisfactionExpression.get_free, SatisfactionExpression.varOccurrences, cle_free_eq]

theorem cpe_free_eq (p : ConstraintProgramExpression) :
    p.get_free = p.varOccurrences.map mkVar := by
  induction p <;>
    simp_all [ConstraintProgramExpression.get_free,
      ConstraintProgramExpression.varOccurrences, se_free_eq, cle_free_eq]

theorem generate_attempt_sound (free : List Variable) (xs : List Assignment)
    (h : generate_attempt free = Except.ok (some xs)) :
    free.length = xs.length ∧
      ∀ (i : Nat) (h1 : i < free.length) (h2 : i < xs.length),
        (free.get ⟨i, h1⟩).assignment = Except.ok (some (xs.get ⟨i, h2⟩)) := by
  induction free generalizing xs with
  | nil =>
    simp [generate_attempt] at h
    subst h
    exact ⟨rfl, fun i h1 h2 => absurd h1 (Nat.not_lt_zero i)⟩
  | cons v free ih =>
    cases hv : v.assignment with
    | error e => simp [generate_attempt, hv] at h
    | ok o =>
      cases o with
      | none => simp [generate_attempt, hv] at h
      | some a =>
        cases hrest : generate_attempt free with
        | error e => simp [generate_attempt, hv, hrest] at h
        | ok o2 =>
          cases o2 with
          | none => simp [generate_attempt, hv, hrest] at h
          | some rest =>
            have hxs : xs = a :: rest := by
              simp [generate_attempt, hv, hrest] at h
              exact h.symm
            subst hxs
            obtain ⟨hlen, hall⟩ := ih rest hrest
            refine ⟨by simp [hlen], ?_⟩
            intro i h1 h2
            cases i with
            | zero => simpa using hv
            | succ n =>
              have hn := hall n (by simpa using h1) (by simpa using h2)
              simpa using hn

theorem generate_attempt_complete (free : List Variable) (xs : List Assignment)
    (hlen : free.length = xs.length)
    (hall : ∀ (i : Nat) (h1 : i < free.length) (h2 : i < xs.length),
        (free.get ⟨i, h1⟩).assignment = Except.ok (some (xs.get ⟨i, h2⟩))) :
    generate_attempt free = Except.ok (some xs) := by
  induction free generalizing xs with
  | nil =>
    cases xs with
    | nil => rfl
    | cons a as => simp at hlen
  | cons v free ih =>
    cases xs with
    | nil => simp at hlen
    | cons a as =>
      have h0 : v.assignment = Except.ok (some a) := by
        have := hall 0 (by simp) (by simp)
        simpa using this
      have hr : generate_attempt free = Except.ok (some as) := by
        apply ih as (by simpa using hlen)
        intro i h1 h2
        have := hall (i + 1) (by simpa using h1) (by simpa using h2)
        simpa using this
      simp [generate_attempt, h0, hr]

theorem generate_attempt_none (free : List Variable)
    (h : generate_attempt free = Except.ok none) :
    free.any Variable.failedSample = true := by
  induction free with
  | nil => simp [generate_attempt] at h
  | cons v free ih =>
    cases hv : v.assignment with
    | error e => simp [generate_attempt, hv] at h
    | ok o =>
      cases o with
      | none => simp [Variable.failedSample, hv]
      | some a =>
        cases hrest : generate_attempt free with
        | error e => simp [generate_attempt, hv, hrest] at h
        | ok o2 =>
          cases o2 with
          | none =>
            have := ih hrest
            simp [this]
          | some rest => simp [generate_attempt, hv, hrest] at h

/-- Claim C1: the spec scenario expects solve of the program
Solve(Satisfy(OfIntegerNumber(Equals(x, Value 5)))) to return the one-element
sequence with x assigned Value 5; the source solve returns the empty sequence
for every program, so the scenario result is empty and differs from the
expected singleton. -/
theorem solve_scenario_returns_nothing :
    solve scenarioProgram = [] ∧
      ([] : List Solution) ≠ [Solution.Variable ⟨"x"⟩ (.Integer (.Value 5))] :=
  ⟨rfl, fun h => List.noConfusion h⟩

/-- Claim C2: sampling a well-typed integer range domain reaches the source
catch-all that terminates the process, modelled as Except.error, and the same
abort propagates through generate_attempt; failures are therefore not always
returned as values. -/
theorem sample_hits_unimplemented :
    Domain.sample (.Integer (.ClosedRange
        (.IntegerNumberValue (.Value 0)) (.IntegerNumberValue (.Value 1)))) =
      Except.error "not implemented" ∧
    generate_attempt [⟨⟨"x"⟩, .Integer (.ClosedRange
        (.IntegerNumberValue (.Value 0)) (.IntegerNumberValue (.Value 1)))⟩] =
      Except.error "not implemented" :=
  ⟨rfl, rfl⟩

/-- Claim C3: apply is expected to replace every variable leaf covered by the
assignment sequence; the source apply returns the program unchanged, so after
applying an assignment that covers the symbol x, the leaf for x is still free
in the result. -/
theorem apply_leaves_covered_symbol :
    apply scenarioProgram [⟨⟨"x"⟩, .Integer (.Value 5)⟩] = scenarioProgram ∧
    free_variables (apply scenarioProgram [⟨⟨"x"⟩, .Integer (.Value 5)⟩]) =
      [⟨⟨"x"⟩, .Integer .Universe⟩] :=
  ⟨rfl, rfl⟩

/-- Claim C4: on the scenario program the attempt generator succeeds, yet after
apply the free-variable list is still the singleton for x, so the coverage
property of the spec and of the repository quickcheck test fails on the code. -/
theorem coverage_violated_on_scenario :
    generate_attempt (free_variables scenarioProgram) =
      Except.ok (some [⟨⟨"x"⟩, .Integer (.Value 0)⟩]) ∧
    free_variables (apply scenarioProgram [⟨⟨"x"⟩, .Integer (.Value 0)⟩]) =
      [⟨⟨"x"⟩, .Integer .Universe⟩] :=
  ⟨rfl, rfl⟩

/-- Claim C5: reduction is idempotent; the source reduce returns its argument
unchanged, so reducing twice equals reducing once for every program. -/
theorem reduce_idempotent :
    ∀ p : ConstraintProgramExpression, reduce (reduce p) = reduce p :=
  fun _ => rfl

/-- Claim C6 counterexample: under the derived structural equality of the
source, NaN compared with NaN is true, refuting the claim that NaN is never
equal to any IntegerNumber value including itself. -/
theorem nan_eq_nan_true : IntegerNumber.eq .NaN .NaN = true := rfl

/-- Claim C6 amended: under the derived structural equality on IntegerNumber,
NaN is never equal to any Value, in either order, but NaN equals NaN, since the
derived equality is reflexive. -/
theorem nan_structural_equality :
    (∀ n : Int,
        IntegerNumber.eq .NaN (.Value n) = false ∧
          IntegerNumber.eq (.Value n) .NaN = false) ∧
      IntegerNumber.eq .NaN .NaN = true :=
  ⟨fun _ => ⟨rfl, rfl⟩, rfl⟩

/-- Claim C7: generate_attempt is all-or-nothing: it returns the full in-order
assignment sequence exactly when every sample in the list succeeds, and when it
returns no attempt because of a failed sample, some variable in the list indeed
sampled to no value; it never returns a partial assignment. -/
theorem generate_attempt_all_or_nothing :
    (∀ (free : List Variable) (xs : List Assignment),
        generate_attempt free = Except.ok (some xs) ↔
          free.length = xs.length ∧
            ∀ (i : Nat) (h1 : i < free.length) (h2 : i < xs.length),
              (free.get ⟨i, h1⟩).assignment = Except.ok (some (xs.get ⟨i, h2⟩))) ∧
      ∀ free : List Variable,
        generate_attempt free = Except.ok none → free.any Variable.failedSample = true :=
  ⟨fun free xs =>
      ⟨generate_attempt_sound free xs,
       fun h => generate_attempt_complete free xs h.1 h.2⟩,
   generate_attempt_none⟩

/-- Witness for C7 at the one-variable list with an empty boolean domain:
generation returns no attempt and the variable indeed failed to sample. -/
theorem generate_attempt_all_or_nothing_witness :
    List.any [Variable.mk ⟨"y"⟩ (.Boolean .Empty)] Variable.failedSample = true :=
  generate_attempt_all_or_nothing.2 [⟨⟨"y"⟩, .Boolean .Empty⟩] rfl

/-- Claim C8: the sampler contract on the basic shapes: Empty samples to no
value for both kinds, the boolean Universe samples to False, the integer
Universe samples to Value 0, and Single v samples to v. -/
theorem sample_basic_shapes :
    Domain.sample (.Boolean .Empty) = Except.ok none ∧
    Domain.sample (.Integer .Empty) = Except.ok none ∧
    Domain.sample (.Boolean .Universe) = Except.ok (some (.Boolean .False)) ∧
    Domain.sample (.Integer .Universe) = Except.ok (some (.Integer (.Value 0))) ∧
    ∀ v : BooleanValue, Domain.sample (.Boolean (.Single v)) = Except.ok (some (.Boolean v)) :=
  ⟨rfl, rfl, rfl, rfl, fun _ => rfl⟩

/-- Claim C9: get_free returns one entry per variable occurrence in
left-to-right depth-first order, each with the Universe domain of its kind, for
boolean expressions, integer expressions and whole programs, and the result is
empty exactly when the expression has no variable leaves. -/
theorem get_free_is_dfs_occurrences :
    (∀ e : BooleanExpression,
        e.get_free =
            e.varOccurrences.map (fun s => Variable.mk s (Domain.Boolean .Universe)) ∧
          (e.get_free = [] ↔ e.varOccurrences = [])) ∧
    (∀ e : IntegerNumberExpression,
        e.get_free =
            e.varOccurrences.map (fun s => Variable.mk s (Domain.Integer .Universe)) ∧
          (e.get_free = [] ↔ e.varOccurrences = [])) ∧
    ∀ p : ConstraintProgramExpression,
        free_variables p = p.varOccurrences.map mkVar ∧
          (free_variables p = [] ↔ p.varOccurrences = []) := by
  refine ⟨fun e => ⟨boolExpr_free_eq e, ?_⟩,
    fun e => ⟨intExpr_free_eq e, ?_⟩,
    fun p => ⟨cpe_free_eq p, ?_⟩⟩
  · rw [boolExpr_free_eq e]
    exact List.map_eq_nil_iff
  · rw [intExpr_free_eq e]
    exact List.map_eq_nil_iff
  · show p.get_free = [] ↔ _
    rw [cpe_free_eq p]
    exact List.map_eq_nil_iff

/-- Claim C10: solve returns the empty sequence of solutions for every program;
the source body ignores its argument and returns an empty vector. -/
theorem solve_always_empty : ∀ p : ConstraintProgramExpression, solve p = [] :=
  fun _ => rfl

end Clp
